import Mathlib

/-!
Verification development for the NPZ arcade-shooter simulation engine
(src/components/GameCanvas.tsx together with the shared type declarations).
Each definition is a shallow embedding of the corresponding source code;
line numbers in the doc comments refer to GameCanvas.tsx.
-/

set_option maxRecDepth 4000

namespace NPZ

/-- Owner tag of a projectile (source: `Bullet.owner` in the type declarations). -/
inductive Owner
  | player
  | enemy
  deriving DecidableEq, Repr

/-- Boolean proximity test. The source computes `Math.sqrt(dx*dx+dy*dy) < r`;
over the rationals we compare squares, which is equivalent whenever `r ≥ 0`
and is `false` for `r < 0` exactly as a square root is never below a negative
bound. -/
def distLt (dx dy r : ℚ) : Bool :=
  decide (0 ≤ r) && decide (dx * dx + dy * dy < r * r)

/-- Player fields used by the hit/regen/heal pipeline (source: `Player` in the
type declarations and `state.player` in GameCanvas.tsx). Position is passed
separately to the functions that need it. -/
structure Player where
  hp : ℚ
  maxHp : ℚ
  shield : ℚ
  revives : ℕ
  invulnerableTime : ℕ
  framesSinceLastHit : ℕ
  grazing : ℕ
  deriving DecidableEq, Repr

/-- Result of one `checkHit` call: the updated player, whether the hit branch
ran, whether a loss outcome event (`onGameOver(..., false, ...)`) was emitted,
and whether the graze branch ran (the graze branch also awards 10 score,
not tracked here). -/
structure HitRes where
  p : Player
  hitApplied : Bool
  lossEmitted : Bool
  grazeApplied : Bool
  deriving DecidableEq, Repr

/-- Per-object player hit test and resolution, from `checkHit` in GameCanvas.tsx
(lines 1933-1950). `incMult` is `incomingDamageMultiplier`; `px, py` is the
player position and `ex, ey, size` the tested object. The surrounding
invulnerability gate (`player.invulnerableTime > 0`, line 1930) is applied by
the caller once per tick, before the per-bullet loop — `checkHit` itself never
re-checks it, and it never checks `isGameOver` before emitting the loss event. -/
def checkHit (incMult px py : ℚ) (p : Player) (ex ey size : ℚ) : HitRes :=
  if distLt (ex - px) (ey - py) (size + 4) then
    if 0 < p.shield then
      ⟨{ p with shield := p.shield - 20 * incMult, invulnerableTime := 30 },
        true, false, false⟩
    else if p.hp - 20 * incMult ≤ 0 then
      if 0 < p.revives then
        ⟨{ p with
            hp := p.maxHp
            revives := p.revives - 1
            invulnerableTime := 120
            framesSinceLastHit := 0 }, true, false, false⟩
      else
        ⟨{ p with hp := p.hp - 20 * incMult, framesSinceLastHit := 0 },
          true, true, false⟩
    else
      ⟨{ p with
          hp := p.hp - 20 * incMult
          invulnerableTime := 60
          framesSinceLastHit := 0 }, true, false, false⟩
  else if distLt (ex - px) (ey - py) 20 then
    ⟨{ p with grazing := p.grazing + 1 }, false, false, true⟩
  else
    ⟨p, false, false, false⟩

/-- Regeneration gate threshold, from GameCanvas.tsx line 627: 300 frames with
the REGEN_UP booster, 600 without. -/
def regenThreshold (regenUp : Bool) : ℕ :=
  if regenUp then 300 else 600

/-- Passive regeneration step, from GameCanvas.tsx lines 626-632:
`framesSinceLastHit` is incremented, and once it exceeds the threshold
(300 with the regen booster, 600 without) the player heals 1 hp on frames
divisible by 60, clamped to `maxHp`. -/
def regenStep (regenUp : Bool) (frame : ℕ) (p : Player) : Player :=
  if regenThreshold regenUp < p.framesSinceLastHit + 1
      ∧ frame % 60 = 0 ∧ p.hp < p.maxHp then
    { p with
        hp := min p.maxHp (p.hp + 1)
        framesSinceLastHit := p.framesSinceLastHit + 1 }
  else { p with framesSinceLastHit := p.framesSinceLastHit + 1 }

/-- The NANO_REPAIR spell effect, from GameCanvas.tsx lines 546-551: heal
30% (50% at level ≥ 2) of `maxHp`, clamped, plus a flat 20 at level ≥ 3,
clamped again. -/
def nanoRepair (lvl : ℕ) (p : Player) : Player :=
  if 3 ≤ lvl then
    { p with
        hp := min p.maxHp
          (min p.maxHp (p.hp + p.maxHp * (if 2 ≤ lvl then 1 / 2 else 3 / 10)) + 20) }
  else
    { p with
        hp := min p.maxHp (p.hp + p.maxHp * (if 2 ≤ lvl then 1 / 2 else 3 / 10)) }

/-- The enemy-bullet-vs-player pass of one tick, from GameCanvas.tsx lines
1952-1971: fold `checkHit` over the colliding objects (given as
`(ex, ey, size)` triples), counting emitted loss events. Faithfully to the
source there is no per-object invulnerability or `isGameOver` re-check inside
the loop; the orb-interception and rectangular-laser special cases are not
modelled. -/
def resolveEnemyBullets (incMult px py : ℚ) (p : Player) :
    List (ℚ × ℚ × ℚ) → Player × ℕ
  | [] => (p, 0)
  | (ex, ey, s) :: rest =>
    let r := checkHit incMult px py p ex ey s
    let (pf, n) := resolveEnemyBullets incMult px py r.p rest
    (pf, (if r.lossEmitted then 1 else 0) + n)

/-- Outcome of the boss-death stage-advance block, GameCanvas.tsx lines
1907-1911. -/
structure DefeatOut where
  isGameOver : Bool
  winEmitted : Bool
  stage : ℕ
  deriving DecidableEq, Repr

/-- Stage advance on boss death, from GameCanvas.tsx lines 1907-1911: in
practice mode the game-over flag is set and a win is emitted; otherwise the
stage is incremented and, at the stage cap (16 in boss-rush modes, 6
otherwise) outside INFINITY difficulty, a win outcome event is emitted —
without touching `isGameOver`. -/
def bossDefeatAdvance (practiceM isBossRush isInfinity : Bool) (stage : ℕ)
    (isGameOver : Bool) : DefeatOut :=
  if practiceM then ⟨true, true, stage⟩
  else if (if isBossRush then 16 else 6) ≤ stage + 1 ∧ ¬isInfinity = true then
    ⟨isGameOver, true, stage + 1⟩
  else ⟨isGameOver, false, stage + 1⟩

/-- Equipped-weapon identifiers (source: `WeaponId` enum in the type
declarations). -/
inductive WeaponId
  | plasma_cutter
  | homing_needles
  | spread_shotgun
  | laser_stream
  | wave_motion
  | orbiting_orbs
  | rocket_barrage
  | chain_lightning
  | back_turret
  | vortex_driver
  | gauss_cannon
  | pulse_nova
  | phase_blades
  deriving DecidableEq, Repr

/-- Boss variants (source: `Enemy.variant` in the type declarations). -/
inductive BossVariant
  | alpha
  | beta
  | gamma
  | delta
  | theta
  | somniomancer
  | revenant
  | alptraum
  deriving DecidableEq, Repr

/-- Projectile fields used by movement, collision and the phase-transition
bullet clear (source: `Bullet` in the type declarations). String ids are
modelled as naturals. In the source the chain branch sets `vx, vy` to a
speed-20 vector aimed at the retarget enemy (via `atan2`/`cos`/`sin`, line
1890); since that unit vector is irrational in general we record the retarget
by the target's id in `aimedAt` instead of mutating `vx, vy`. -/
structure Bullet where
  x : ℚ
  y : ℚ
  width : ℚ
  vx : ℚ
  vy : ℚ
  owner : Owner
  damage : ℚ
  timer : ℕ
  dead : Bool
  weaponId : Option WeaponId
  piercing : Bool
  hitList : List ℕ
  chainCount : Option ℤ
  splashRadius : Option ℚ
  orbitRadius : Option ℚ
  isVortex : Bool
  isSpawner : Bool
  aimedAt : Option ℕ
  deriving DecidableEq, Repr

/-- The player firing cadence, GameCanvas.tsx lines 678-679: every 6th frame,
or every 3rd (2nd at OVERCLOCK level ≥ 3) while the OVERCLOCK buff is
active. -/
def baseFireRate (isOverclocked : Bool) (ocLevel : ℕ) : ℕ :=
  if isOverclocked then (if 3 ≤ ocLevel then 2 else 3) else 6

/-- Number of projectiles a weapon pushes on a firing frame, from the
per-weapon cases of the firing switch, GameCanvas.tsx lines 690-806. Several
weapons gate their emission on an additional frame modulus (VORTEX_DRIVER
every 53 frames, GAUSS_CANNON every 40, PULSE_NOVA every 50, PHASE_BLADES
every 30) or on the live orb count (ORBITING_ORBS), and emit nothing
otherwise. -/
def bulletsEmitted (w : WeaponId) (lvl : ℕ) (frame orbs : ℕ) : ℕ :=
  match w with
  | .plasma_cutter => if 3 ≤ lvl then 3 else 1
  | .spread_shotgun => 2 * (if 3 ≤ lvl then 3 else 2) + 1
  | .homing_needles => if 3 ≤ lvl then 4 else 2
  | .laser_stream => 1
  | .wave_motion => if 3 ≤ lvl then 2 else 1
  | .rocket_barrage => 1
  | .chain_lightning => 1
  | .back_turret => if 3 ≤ lvl then 2 else 1
  | .vortex_driver => if frame % 53 = 0 then 1 else 0
  | .orbiting_orbs =>
      if orbs < (if lvl = 1 then 2 else if lvl = 2 then 3 else 4) ∧ frame % 10 = 0
      then 1 else 0
  | .gauss_cannon => if frame % 40 = 0 then 1 else 0
  | .pulse_nova => if frame % 50 = 0 then 1 else 0
  | .phase_blades => if frame % 30 = 0 then (if 2 ≤ lvl then 3 else 2) else 0

/-- One firing tick while the fire key is held, GameCanvas.tsx lines 675-810:
on frames passing the cadence gate, the loop over `equippedWeapons` increments
`stats.shotsFired` once per weapon (line 688) before the weapon's own switch
case runs. Returns (shots-fired increment, projectiles actually emitted). -/
def fireTick (weapons : List WeaponId) (lvls : WeaponId → ℕ) (frame orbs : ℕ)
    (isOverclocked : Bool) (ocLevel : ℕ) : ℕ × ℕ :=
  if frame % baseFireRate isOverclocked ocLevel = 0 then
    (weapons.length, (weapons.map fun w => bulletsEmitted w (lvls w) frame orbs).sum)
  else (0, 0)

/-- Boss fields driving the phase-transition machinery (source: `Enemy` boss
fields `phase`, `phaseTransitionTimer`, `dmgReduction`, `dmgReductionTimer`). -/
structure BossPh where
  hp : ℚ
  maxHp : ℚ
  phase : ℕ
  phaseTransitionTimer : ℕ
  dmgReduction : ℚ
  dmgReductionTimer : ℕ
  deriving DecidableEq, Repr

/-- Output of one boss behavior-phase step: the updated boss, whether the
phase-2 transition fired this tick (which clears all player projectiles,
lines 907-910), and whether the attack logic below the transition block was
reached (`attacksAllowed = false` exactly when the early `return` of lines
931-937 fired). -/
structure BossStepOut where
  boss : BossPh
  clearedPlayerBullets : Bool
  attacksAllowed : Bool
  deriving DecidableEq, Repr

/-- Damage-reduction shield countdown, GameCanvas.tsx lines 817-822: while the
timer is positive it is decremented, and on reaching 0 the reduction fraction
is zeroed. -/
def dmgReductionTick (b : BossPh) : BossPh :=
  if 0 < b.dmgReductionTimer then
    if b.dmgReductionTimer - 1 = 0 then
      { b with dmgReductionTimer := 0, dmgReduction := 0 }
    else { b with dmgReductionTimer := b.dmgReductionTimer - 1 }
  else b

/-- The phase-2 trigger condition, GameCanvas.tsx line 895:
`e.phase === 1 && e.hp < e.maxHp * 0.4`. -/
def bossTransitionTrigger (b : BossPh) : Bool :=
  decide (b.phase = 1) && decide (b.hp < b.maxHp * (2 / 5))

/-- One per-tick pass of the boss phase machinery, GameCanvas.tsx lines
817-822 and 893-937: shield countdown, then the one-time phase-2 trigger
(sets phase 2, a 120-frame transition timer, a 0.5 damage reduction for 300
frames, and clears player projectiles), then the transition-animation
countdown whose early `return` suppresses everything below it (movement,
summons and all attack patterns) for that tick. -/
def bossPhaseTick (b0 : BossPh) : BossStepOut :=
  let b1 := dmgReductionTick b0
  let b2 :=
    if bossTransitionTrigger b1 then
      { b1 with
          phase := 2
          phaseTransitionTimer := 120
          dmgReduction := 1 / 2
          dmgReductionTimer := 300 }
    else b1
  if 0 < b2.phaseTransitionTimer then
    ⟨{ b2 with phaseTransitionTimer := b2.phaseTransitionTimer - 1 },
      bossTransitionTrigger b1, false⟩
  else ⟨b2, bossTransitionTrigger b1, true⟩

/-- Player-projectile clear at the phase transition, GameCanvas.tsx lines
907-910: every player-owned bullet is marked dead (with a cosmetic
explosion). -/
def clearPlayerBullets (bs : List Bullet) : List Bullet :=
  bs.map fun b => if b.owner = Owner.player then { b with dead := true } else b

/-- A boss run: before each tick an externally dealt damage amount is applied
to hp (collision resolution runs after the behavior pass within a tick, so
damage dealt during tick n is observed by the phase check of tick n+1);
returns how many ticks fired the phase-2 transition. -/
def bossRunCleared (b : BossPh) : List ℚ → ℕ
  | [] => 0
  | d :: rest =>
    let o := bossPhaseTick { b with hp := b.hp - d }
    (if o.clearedPlayerBullets then 1 else 0) + bossRunCleared o.boss rest

/-- The per-tick `attacksAllowed` trace of a boss run. -/
def bossRunAttacks (b : BossPh) : List ℚ → List Bool
  | [] => []
  | d :: rest =>
    let o := bossPhaseTick { b with hp := b.hp - d }
    o.attacksAllowed :: bossRunAttacks o.boss rest

/-- Enemy type tags relevant to collision, cascade and follower logic
(source: `Enemy.type` in the type declarations; tags whose collision behavior
is identical are collapsed into `other`). -/
inductive EType
  | drone
  | tank
  | boss
  | bossClone
  | reflector
  | alpReflector
  | seraphDrone
  | oracleMinion
  | alpMiniBoss
  | kamikaze
  | other
  deriving DecidableEq, Repr

/-- Enemy fields read or written by the collision and damage resolver
(source: `Enemy` in the type declarations). String ids are modelled as
naturals. -/
structure Enemy where
  id : ℕ
  x : ℚ
  y : ℚ
  width : ℚ
  hp : ℚ
  maxHp : ℚ
  dead : Bool
  etype : EType
  variant : Option BossVariant
  isGhost : Bool
  isReflecting : Bool
  shieldActive : Bool
  shieldHp : ℚ
  dmgReduction : ℚ
  frozenTimer : ℕ
  scoreValue : ℤ
  deriving DecidableEq, Repr

/-- Outcome of one projectile-vs-enemy resolution: updated bullet and enemy,
whether the direct-damage line (`e.hp -= finalDamage`, line 1886) ran, whether
the death payout block (lines 1892-1911: mark dead, award score, roll
currency, bump kill counters) ran, and how many `createExplosion` calls were
requested. -/
structure HitOutcome where
  b : Bullet
  e : Enemy
  didDamage : Bool
  payout : Bool
  explosions : ℕ
  deriving DecidableEq, Repr

/-- Chain retarget search, from line 1890:
`state.enemies.find(ne => ne.id !== e.id && !ne.dead && dist(ne, e) < range)` —
the FIRST list entry within range, not the nearest. -/
def findNextTarget (es : List Enemy) (srcId : ℕ) (ex ey range : ℚ) :
    Option Enemy :=
  es.find? fun ne => (ne.id != srcId) && (!ne.dead) && distLt (ne.x - ex) (ne.y - ey) range

/-- The PULSE_NOVA pulse cadence, line 1889: `b.splashRadius || 20`, a natural
number (10 or 20) stored in the rational `splashRadius` field. -/
def pulseRateOf (b : Bullet) : ℕ :=
  (b.splashRadius.getD 20).floor.toNat

/-- Whether the chain branch is live, from the line-1890 guard
`b.chainCount && b.chainCount > 0` (a chainCount of 0 or -1 is falsy or
non-positive). -/
def chainActive (b : Bullet) : Bool :=
  match b.chainCount with
  | some c => decide (0 < c)
  | none => false

/-- The on-hit weapon payout branch chain of line 1890, run after damage is
applied: splash (non-orb/nova/wave splash radius) explodes and consumes the
bullet, with three extra cluster explosions at chainCount = -1; otherwise a
live chain jump decrements the budget, appends the struck id to the hit list
and retargets to the first in-range enemy — relocating the bullet to the
STRUCK enemy's position and aiming at the found target — or dies if none;
otherwise piercing appends to the hit list (GAUSS_CANNON additionally
decrements its budget and dies at 0); otherwise non-orb/nova bullets are
consumed. Returns the updated bullet and requested explosion count. -/
def onHitUpdate (es : List Enemy) (b : Bullet) (e : Enemy) : Bullet × ℕ :=
  if b.splashRadius.isSome ∧ b.weaponId ≠ some WeaponId.orbiting_orbs
      ∧ b.weaponId ≠ some WeaponId.pulse_nova
      ∧ b.weaponId ≠ some WeaponId.wave_motion then
    ({ b with dead := true }, 1 + (if b.chainCount = some (-1) then 3 else 0))
  else if chainActive b = true ∧ b.weaponId ≠ some WeaponId.pulse_nova then
    match findNextTarget es e.id e.x e.y (200 * b.orbitRadius.getD 1) with
    | some nt =>
      ({ b with
          chainCount := some (b.chainCount.getD 0 - 1)
          hitList := b.hitList ++ [e.id]
          aimedAt := some nt.id
          x := e.x
          y := e.y }, 0)
    | none =>
      ({ b with
          chainCount := some (b.chainCount.getD 0 - 1)
          hitList := b.hitList ++ [e.id]
          dead := true }, 0)
  else if b.piercing = true then
    if b.weaponId = some WeaponId.gauss_cannon then
      match b.chainCount with
      | some c =>
        if c - 1 ≤ 0 then
          ({ b with
              hitList := b.hitList ++ [e.id]
              chainCount := some (c - 1)
              dead := true }, 0)
        else
          ({ b with hitList := b.hitList ++ [e.id], chainCount := some (c - 1) }, 0)
      | none => ({ b with hitList := b.hitList ++ [e.id] }, 0)
    else ({ b with hitList := b.hitList ++ [e.id] }, 0)
  else if b.weaponId ≠ some WeaponId.orbiting_orbs
      ∧ b.weaponId ≠ some WeaponId.pulse_nova then
    ({ b with dead := true }, 0)
  else (b, 0)

/-- The in-range damage core (lines 1879-1912): frozen bonus (×1.5 with
STASIS_FIELD level ≥ 3), damage-reduction fraction, the direct damage line,
the PULSE_NOVA pulse explosion, the on-hit branch chain, and the guarded death
payout (`e.hp <= 0 && !e.dead`) with its PULSE_NOVA level-3 and kamikaze death
explosions. -/
def resolveDamage (stasisLvl novaLvl : ℕ) (es : List Enemy) (b : Bullet)
    (e : Enemy) : HitOutcome :=
  let finalDamage :=
    (if 0 < e.frozenTimer ∧ 3 ≤ stasisLvl then b.damage * (3 / 2) else b.damage) *
      (if 0 < e.dmgReduction then 1 - e.dmgReduction else 1)
  let pulseExp : ℕ :=
    if b.weaponId = some WeaponId.pulse_nova ∧ b.timer % pulseRateOf b = 0 then 1
    else 0
  let be := onHitUpdate es b e
  if e.hp - finalDamage ≤ 0 ∧ e.dead = false then
    ⟨be.1, { e with hp := e.hp - finalDamage, dead := true }, true, true,
      pulseExp + be.2 +
        (if b.weaponId = some WeaponId.pulse_nova ∧ 3 ≤ novaLvl then 1 else 0) +
        (if e.etype = EType.kamikaze then 1 else 0)⟩
  else
    ⟨be.1, { e with hp := e.hp - finalDamage }, true, false, pulseExp + be.2⟩

/-- One projectile-vs-enemy pass of the player-bullet collision loop, lines
1833-1913: skip if either side is dead, if the enemy id is already in the
bullet's hit list, or if the enemy is a non-collidable ghost; a reflecting
reflector destroys the bullet (and spawns a return shot, not tracked);
an active theta/alptraum boss shield within 80 units absorbs the bullet into
the shield pool; a boss clone destroys the bullet with a cosmetic explosion;
otherwise, within hit range, the damage core runs. -/
def resolveHit (stasisLvl novaLvl : ℕ) (es : List Enemy) (b : Bullet)
    (e : Enemy) : HitOutcome :=
  if e.dead = true ∨ b.dead = true then ⟨b, e, false, false, 0⟩
  else if e.id ∈ b.hitList then ⟨b, e, false, false, 0⟩
  else if e.isGhost = true then ⟨b, e, false, false, 0⟩
  else if (e.etype = EType.reflector ∨ e.etype = EType.alpReflector)
      ∧ e.isReflecting = true
      ∧ distLt (b.x - e.x) (b.y - e.y) (e.width + b.width + 10) = true then
    ⟨{ b with dead := true }, e, false, false, 0⟩
  else if e.etype = EType.boss
      ∧ (e.variant = some BossVariant.theta ∨ e.variant = some BossVariant.alptraum)
      ∧ e.shieldActive = true ∧ 0 < e.shieldHp
      ∧ distLt (b.x - e.x) (b.y - e.y) 80 = true then
    ⟨{ b with dead := true }, { e with shieldHp := e.shieldHp - b.damage },
      false, false, 0⟩
  else if distLt (b.x - e.x) (b.y - e.y) (e.width + b.width) = true then
    if e.etype = EType.bossClone then ⟨{ b with dead := true }, e, false, false, 1⟩
    else resolveDamage stasisLvl novaLvl es b e
  else ⟨b, e, false, false, 0⟩

/-- A bullet's lifetime of encounters: each list entry is an enemy together
with the enemy-list context used for chain retargeting; the bullet state is
threaded through. Counts the encounters at which the direct-damage line ran
against an enemy with the given id. -/
def damagedCount (stasisLvl novaLvl : ℕ) (i : ℕ) (b : Bullet) :
    List (Enemy × List Enemy) → ℕ
  | [] => 0
  | (e, ctx) :: rest =>
    let o := resolveHit stasisLvl novaLvl ctx b e
    (if o.didDamage = true ∧ e.id = i then 1 else 0) +
      damagedCount stasisLvl novaLvl i o.b rest

/-- Area damage applied to one enemy by `createExplosion`, lines 479-486:
within `radius + e.width` of the centre, every enemy except boss clones loses
hp — with no death check, no dead-flag write and no payout. -/
def createExplosionHit (cx cy radius finalDamage : ℚ) (e : Enemy) : Enemy :=
  if distLt (e.x - cx) (e.y - cy) (radius + e.width) = true
      ∧ e.etype ≠ EType.bossClone then
    { e with hp := e.hp - finalDamage }
  else e

/-- A damage event against one enemy: an explosion (splash or spell area
damage, which is how EMP level 3 and ORBITAL_STRIKE deal damage through
`createExplosion`) or a direct projectile resolution. -/
inductive DamageEvent
  | explosion (cx cy radius dmg : ℚ)
  | direct (stasisLvl novaLvl : ℕ) (ctx : List Enemy) (b : Bullet)
  deriving Repr

/-- Number of death payouts an enemy receives over a sequence of damage
events. -/
def payoutCount (e : Enemy) : List DamageEvent → ℕ
  | [] => 0
  | DamageEvent.explosion cx cy r d :: rest =>
    payoutCount (createExplosionHit cx cy r d e) rest
  | DamageEvent.direct s n ctx b :: rest =>
    let o := resolveHit s n ctx b e
    (if o.payout = true then 1 else 0) + payoutCount o.e rest

/-- The enemy state after a sequence of damage events. -/
def runDamageEvents (e : Enemy) : List DamageEvent → Enemy
  | [] => e
  | DamageEvent.explosion cx cy r d :: rest =>
    runDamageEvents (createExplosionHit cx cy r d e) rest
  | DamageEvent.direct s n ctx b :: rest =>
    runDamageEvents (resolveHit s n ctx b e).e rest

/-- Per-tick projectile advance, lines 1791-1794: positions move by velocity,
scaled by the time-scale for enemy-owned bullets only; orbiting orbs and
spawners are positioned elsewhere. -/
def bulletAdvance (ts : ℚ) (b : Bullet) : Bullet :=
  if b.weaponId ≠ some WeaponId.orbiting_orbs ∧ b.isSpawner = false then
    { b with
        x := b.x + b.vx * (if b.owner = Owner.enemy then ts else 1)
        y := b.y + b.vy * (if b.owner = Owner.enemy then ts else 1) }
  else b

/-- One behavior tick of a tank mob: the shared timer increment
`e.shotTimer++` of line 970 (NOT scaled by the time-scale), then the tank
branch of line 1598: `e.y += 0.8 * state.timeScale` and a 3-bullet volley
once the shot timer exceeds 90, resetting it. Returns (new y, new shot timer,
fired this tick). -/
def tankStep (ts : ℚ) (y : ℚ) (shotTimer : ℕ) : ℚ × ℕ × Bool :=
  (y + (4 / 5) * ts,
    if 90 < shotTimer + 1 then 0 else shotTimer + 1,
    decide (90 < shotTimer + 1))

/-- Player movement speed per tick, line 616: focus (shift) halves it, the
OVERCLOCK buff doubles it; the time-scale plays no part. -/
def playerSpeed (isShift isOverclocked : Bool) : ℚ :=
  (if isShift then 5 / 2 else 5) * (if isOverclocked then 2 else 1)

/-- Beta-variant oracle-minion movement, line 1591:
`e.x += e.vx; e.y += e.vy; if (e.x < 10 || e.x > CANVAS_WIDTH - 10) e.vx *= -1`
— a representative of the enemy branches (bosses 1043-1101, boss clones
941-946, orbit followers, ghost drones 848-851 and oracle minions) whose
positional deltas are NOT multiplied by `state.timeScale`, unlike the
standard-mob branches of lines 1597-1610. `canvasW` is `CANVAS_WIDTH`.
Returns (new x, new y, new vx). -/
def oracleMinionBetaMove (canvasW x y vx vy : ℚ) : ℚ × ℚ × ℚ :=
  if x + vx < 10 ∨ canvasW - 10 < x + vx then (x + vx, y + vy, -vx)
  else (x + vx, y + vy, vx)

/-- Membership test of the boss-death cascade filter, line 1905:
`en.type === 'boss_clone' || en.isGhost || en.type === 'alp_mini_boss' ||
en.type === 'alp_reflector' || en.type === 'seraph_drone'` — note
`oracle_minion` is absent. -/
def cascadeTarget (en : Enemy) : Bool :=
  (en.etype == EType.bossClone) || en.isGhost || (en.etype == EType.alpMiniBoss)
    || (en.etype == EType.alpReflector) || (en.etype == EType.seraphDrone)

/-- Effect of the boss-death cascade on one enemy (line 1905). -/
def bossDeathCascadeOne (en : Enemy) : Enemy :=
  if cascadeTarget en = true then { en with dead := true } else en

/-- The boss-death cascade over the enemy list (line 1905). -/
def bossDeathCascade (es : List Enemy) : List Enemy :=
  es.map bossDeathCascadeOne

/-- Whether a follower's behavior branch marks it dead this tick given whether
it has a parent id and whether that parent is present and alive:
seraph drones (lines 1569-1581) and alp mini-bosses (lines 949-959)
self-terminate on a dead or missing parent; oracle minions (lines 1583-1593)
never do — the alpha variant merely drifts along its orbit tangent and the
beta variant ignores its parent entirely. -/
def orphanSelfTerminates : EType → Bool → Bool → Bool
  | EType.seraphDrone, hasParent, parentAlive => hasParent && !parentAlive
  | EType.alpMiniBoss, hasParent, parentAlive => hasParent && !parentAlive
  | EType.oracleMinion, _, _ => false
  | _, _, _ => false

/-- C1 counterexample: a player at hp = 10, maxHp = 100 with no shield and no
revives takes a standard 20-damage hit (incoming multiplier 1) at point-blank
range and is left with hp = -10 < 0, refuting the claim that damage never
leaves hp below 0 after resolution. -/
theorem c1_hp_below_zero_counterexample :
    (checkHit 1 300 700 ⟨10, 100, 0, 0, 0, 0, 0⟩ 300 700 5).p.hp = -10 ∧
      (checkHit 1 300 700 ⟨10, 100, 0, 0, 0, 0, 0⟩ 300 700 5).p.hp < 0 := by
  norm_num [checkHit, distLt]

/-- C1 (amended): regeneration, nano-repair healing and hit resolution never
raise hp above `maxHp`; and on any hit resolution that does not emit the loss
event, hp stays strictly positive (a consumed revive restores it to `maxHp`).
Only the run-ending hit can leave hp below 0. -/
theorem c1_hp_bounds_amended :
    (∀ (regenUp : Bool) (frame : ℕ) (p : Player),
        p.hp ≤ p.maxHp → (regenStep regenUp frame p).hp ≤ p.maxHp)
    ∧ (∀ (lvl : ℕ) (p : Player), (nanoRepair lvl p).hp ≤ p.maxHp)
    ∧ (∀ (m px py ex ey s : ℚ) (p : Player), 0 ≤ m →
        p.hp ≤ p.maxHp → (checkHit m px py p ex ey s).p.hp ≤ p.maxHp)
    ∧ (∀ (m px py ex ey s : ℚ) (p : Player), 0 ≤ m →
        0 < p.hp → 0 < p.maxHp →
        (checkHit m px py p ex ey s).lossEmitted = false →
        0 < (checkHit m px py p ex ey s).p.hp) := by
  refine ⟨?_, ?_, ?_, ?_⟩
  · intro regenUp frame p h
    simp only [regenStep]
    split
    · simpa using min_le_left p.maxHp (p.hp + 1)
    · simpa using h
  · intro lvl p
    simp only [nanoRepair]
    split
    · simpa using min_le_left _ _
    · simpa using min_le_left _ _
  · intro m px py ex ey s p hm h
    simp only [checkHit]
    split
    · split
      · simpa using h
      · split
        · split
          · simp
          · simp only
            nlinarith
        · simp only
          nlinarith
    · split
      · simpa using h
      · simpa using h
  · intro m px py ex ey s p hm hp hmax hloss
    simp only [checkHit] at hloss ⊢
    split at hloss <;> rename_i hd
    · rw [if_pos hd]
      split at hloss <;> rename_i hs
      · rw [if_pos hs]
        simpa using hp
      · rw [if_neg hs]
        split at hloss <;> rename_i hlethal
        · rw [if_pos hlethal]
          split at hloss <;> rename_i hrev
          · rw [if_pos hrev]
            simpa using hmax
          · rw [if_neg hrev]
            simp at hloss
        · rw [if_neg hlethal]
          simp only
          push_neg at hlethal
          linarith
    · rw [if_neg hd]
      split
      · simpa using hp
      · simpa using hp

/-- Witness for the C1 amended theorem at concrete inputs. -/
theorem c1_hp_bounds_witness :
    ((⟨50, 100, 0, 0, 0, 0, 0⟩ : Player).hp ≤ (⟨50, 100, 0, 0, 0, 0, 0⟩ : Player).maxHp)
    ∧ (regenStep false 60 ⟨50, 100, 0, 0, 0, 601, 0⟩).hp ≤
        (⟨50, 100, 0, 0, 0, 601, 0⟩ : Player).maxHp
    ∧ (checkHit 1 300 700 ⟨50, 100, 0, 0, 0, 0, 0⟩ 300 700 5).p.hp ≤
        (⟨50, 100, 0, 0, 0, 0, 0⟩ : Player).maxHp
    ∧ 0 < (checkHit 1 300 700 ⟨50, 100, 0, 0, 0, 0, 0⟩ 300 700 5).p.hp := by
  refine ⟨by norm_num, ?_, ?_, ?_⟩
  · exact c1_hp_bounds_amended.1 false 60 ⟨50, 100, 0, 0, 0, 601, 0⟩ (by norm_num)
  · exact c1_hp_bounds_amended.2.2.1 1 300 700 300 700 5 ⟨50, 100, 0, 0, 0, 0, 0⟩
      (by norm_num) (by norm_num)
  · exact c1_hp_bounds_amended.2.2.2 1 300 700 300 700 5 ⟨50, 100, 0, 0, 0, 0, 0⟩
      (by norm_num) (by norm_num) (by norm_num)
      (by norm_num [checkHit, distLt])

/-- C2: at the failing input — a player at hp = 20, maxHp = 100 with no shield
and no revives, struck by two overlapping enemy bullets in the same tick — the
per-tick resolution emits the loss outcome event twice (`checkHit` never
consults `isGameOver`); and the regular stage-6 boss-defeat path emits the win
outcome event while leaving `isGameOver` false, so stepping is not stopped.
This refutes the exactly-one-outcome-event guarantee. -/
theorem c2_double_outcome_event :
    (resolveEnemyBullets 1 300 700 ⟨20, 100, 0, 0, 0, 0, 0⟩
        [(300, 700, 5), (300, 700, 5)]).2 = 2
    ∧ (bossDefeatAdvance false false false 5 false).winEmitted = true
    ∧ (bossDefeatAdvance false false false 5 false).isGameOver = false := by
  refine ⟨?_, by decide, by decide⟩
  norm_num [resolveEnemyBullets, checkHit, distLt]

/-- C9: player-side resolution order, from `checkHit` (lines 1933-1950). On a
hit: an active shield pool absorbs the damage and hp is untouched; with no
shield, hp is reduced, and if it reaches 0 a banked revive is consumed (hp
restored to `maxHp`, 120 frames of invulnerability) when available, else the
loss outcome event is emitted. -/
theorem c9_shield_then_hp_then_revive :
    ∀ (m px py ex ey s : ℚ) (p : Player),
      distLt (ex - px) (ey - py) (s + 4) = true →
      ((0 < p.shield →
          (checkHit m px py p ex ey s).p.hp = p.hp ∧
          (checkHit m px py p ex ey s).p.shield = p.shield - 20 * m ∧
          (checkHit m px py p ex ey s).lossEmitted = false)
        ∧ (p.shield ≤ 0 → p.hp - 20 * m ≤ 0 → 0 < p.revives →
          (checkHit m px py p ex ey s).p.hp = p.maxHp ∧
          (checkHit m px py p ex ey s).p.revives = p.revives - 1 ∧
          (checkHit m px py p ex ey s).p.invulnerableTime = 120 ∧
          (checkHit m px py p ex ey s).lossEmitted = false)
        ∧ (p.shield ≤ 0 → p.hp - 20 * m ≤ 0 → p.revives = 0 →
          (checkHit m px py p ex ey s).lossEmitted = true)) := by
  intro m px py ex ey s p hd
  simp only [checkHit]
  rw [if_pos hd]
  refine ⟨?_, ?_, ?_⟩
  · intro hs
    rw [if_pos hs]
    exact ⟨rfl, rfl, rfl⟩
  · intro hs hl hr
    rw [if_neg (by exact not_lt.mpr hs), if_pos hl, if_pos hr]
    exact ⟨rfl, rfl, rfl, rfl⟩
  · intro hs hl hr
    rw [if_neg (by exact not_lt.mpr hs), if_pos hl, if_neg (by simp [hr])]

/-- Witness for C9: the spec scenario — player at hp = 20, maxHp = 100, no
shield, no revives, takes a 20-damage hit — emits the loss event; and a
shielded player keeps hp unchanged. -/
theorem c9_shield_then_hp_then_revive_witness :
    (checkHit 1 300 700 ⟨20, 100, 0, 0, 0, 0, 0⟩ 300 700 5).lossEmitted = true
    ∧ (checkHit 1 300 700 ⟨20, 100, 50, 0, 0, 0, 0⟩ 300 700 5).p.hp = 20 := by
  constructor
  · exact (c9_shield_then_hp_then_revive 1 300 700 300 700 5
      ⟨20, 100, 0, 0, 0, 0, 0⟩ (by norm_num [distLt])).2.2
      (by norm_num) (by norm_num) rfl
  · exact ((c9_shield_then_hp_then_revive 1 300 700 300 700 5
      ⟨20, 100, 50, 0, 0, 0, 0⟩ (by norm_num [distLt])).1 (by norm_num)).1

/-- The shield countdown never touches phase, hp, maxHp or the transition
timer. -/
theorem dmgReductionTick_preserves (b : BossPh) :
    (dmgReductionTick b).phase = b.phase ∧ (dmgReductionTick b).hp = b.hp ∧
    (dmgReductionTick b).maxHp = b.maxHp ∧
    (dmgReductionTick b).phaseTransitionTimer = b.phaseTransitionTimer := by
  unfold dmgReductionTick
  split
  · split <;> exact ⟨rfl, rfl, rfl, rfl⟩
  · exact ⟨rfl, rfl, rfl, rfl⟩

/-- The transition trigger is unaffected by the shield countdown. -/
theorem bossTransitionTrigger_dmgReductionTick (b : BossPh) :
    bossTransitionTrigger (dmgReductionTick b) = bossTransitionTrigger b := by
  unfold bossTransitionTrigger
  rw [(dmgReductionTick_preserves b).1, (dmgReductionTick_preserves b).2.1,
    (dmgReductionTick_preserves b).2.2.1]

/-- The bullet-clear flag of a boss tick is exactly the transition trigger. -/
theorem bossPhaseTick_cleared (b : BossPh) :
    (bossPhaseTick b).clearedPlayerBullets = bossTransitionTrigger b := by
  simp only [bossPhaseTick]
  split
  · split <;> simp [bossTransitionTrigger_dmgReductionTick]
  · split <;> simp [bossTransitionTrigger_dmgReductionTick]

/-- A tick that fires the transition leaves the boss in phase 2. -/
theorem bossPhaseTick_cleared_phase2 (b : BossPh)
    (h : (bossPhaseTick b).clearedPlayerBullets = true) :
    (bossPhaseTick b).boss.phase = 2 := by
  have ht : bossTransitionTrigger (dmgReductionTick b) = true := by
    have := bossPhaseTick_cleared b
    rw [h] at this
    rw [bossTransitionTrigger_dmgReductionTick]
    exact this.symm
  simp only [bossPhaseTick]
  rw [ht]
  rw [if_pos rfl]
  rw [if_pos (show 0 < (120 : ℕ) by norm_num)]

/-- A phase-2 boss never re-fires the transition and stays in phase 2. -/
theorem bossPhaseTick_phase2 (b : BossPh) (h : b.phase = 2) :
    (bossPhaseTick b).boss.phase = 2 ∧
    (bossPhaseTick b).clearedPlayerBullets = false := by
  have ht : bossTransitionTrigger (dmgReductionTick b) = false := by
    rw [bossTransitionTrigger_dmgReductionTick]
    simp [bossTransitionTrigger, h]
  constructor
  · simp only [bossPhaseTick]
    rw [ht]
    simp only [Bool.false_eq_true, if_false]
    split
    · simpa [(dmgReductionTick_preserves b).1] using h
    · simpa [(dmgReductionTick_preserves b).1] using h
  · rw [bossPhaseTick_cleared b, ← bossTransitionTrigger_dmgReductionTick]
    exact ht

/-- During the transition window a phase-2 boss attacks nothing and the timer
counts down by one. -/
theorem bossPhaseTick_transition_step (b : BossPh) (h : b.phase = 2)
    (ht : 0 < b.phaseTransitionTimer) :
    (bossPhaseTick b).attacksAllowed = false ∧
    (bossPhaseTick b).boss.phaseTransitionTimer = b.phaseTransitionTimer - 1 ∧
    (bossPhaseTick b).boss.phase = 2 := by
  have htr : bossTransitionTrigger (dmgReductionTick b) = false := by
    rw [bossTransitionTrigger_dmgReductionTick]
    simp [bossTransitionTrigger, h]
  simp only [bossPhaseTick]
  rw [htr]
  simp only [Bool.false_eq_true, if_false]
  rw [if_pos (by rw [(dmgReductionTick_preserves b).2.2.2]; exact ht)]
  refine ⟨rfl, ?_, ?_⟩
  · simp [(dmgReductionTick_preserves b).2.2.2]
  · simpa [(dmgReductionTick_preserves b).1] using h

/-- A run starting in phase 2 never fires the transition. -/
theorem bossRunCleared_phase2 (ds : List ℚ) :
    ∀ b : BossPh, b.phase = 2 → bossRunCleared b ds = 0 := by
  induction ds with
  | nil => intro b _; rfl
  | cons d rest ih =>
    intro b h
    have h2 := bossPhaseTick_phase2 { b with hp := b.hp - d } h
    simp only [bossRunCleared]
    rw [h2.2, ih _ h2.1]
    simp

/-- Any run fires the transition at most once. -/
theorem bossRunCleared_le_one (ds : List ℚ) :
    ∀ b : BossPh, bossRunCleared b ds ≤ 1 := by
  induction ds with
  | nil => intro b; exact Nat.zero_le 1
  | cons d rest ih =>
    intro b
    simp only [bossRunCleared]
    by_cases hc : (bossPhaseTick { b with hp := b.hp - d }).clearedPlayerBullets = true
    · rw [hc, bossRunCleared_phase2 rest _ (bossPhaseTick_cleared_phase2 _ hc)]
      simp
    · rw [Bool.not_eq_true] at hc
      rw [hc]
      simpa using ih _

/-- While the transition timer of a phase-2 boss runs, every tick of the run
has attacks suppressed. -/
theorem bossRunAttacks_suppressed (ds : List ℚ) :
    ∀ b : BossPh, b.phase = 2 →
      (bossRunAttacks b ds).take b.phaseTransitionTimer =
        List.replicate (min b.phaseTransitionTimer ds.length) false := by
  induction ds with
  | nil => intro b _; simp [bossRunAttacks]
  | cons d rest ih =>
    intro b h
    match htv : b.phaseTransitionTimer with
    | 0 => simp
    | t + 1 =>
      have hpos : 0 < ({ b with hp := b.hp - d } : BossPh).phaseTransitionTimer := by
        show 0 < b.phaseTransitionTimer
        omega
      obtain ⟨ha, htt, hph⟩ := bossPhaseTick_transition_step { b with hp := b.hp - d } h hpos
      simp only [bossRunAttacks]
      generalize hO : bossPhaseTick { b with hp := b.hp - d } = o at ha htt hph
      have htt2 : o.boss.phaseTransitionTimer = t := by
        rw [htt]
        show b.phaseTransitionTimer - 1 = t
        omega
      have hrec := ih o.boss hph
      rw [htt2] at hrec
      rw [List.take_succ_cons, ha, hrec, List.length_cons, Nat.succ_min_succ,
        List.replicate_succ]

/-- While the shield timer is still running, the damage-reduction fraction is
untouched and the timer has counted down accordingly. -/
theorem dmgReductionTick_iter (k : ℕ) :
    ∀ b : BossPh, k < b.dmgReductionTimer →
      (dmgReductionTick^[k] b).dmgReduction = b.dmgReduction ∧
      (dmgReductionTick^[k] b).dmgReductionTimer = b.dmgReductionTimer - k := by
  induction k with
  | zero => intro b _; simp
  | succ k ih =>
    intro b h
    rw [Function.iterate_succ_apply]
    have h1 : 0 < b.dmgReductionTimer := by omega
    have h2 : ¬b.dmgReductionTimer - 1 = 0 := by omega
    have hstep : dmgReductionTick b =
        { b with dmgReductionTimer := b.dmgReductionTimer - 1 } := by
      unfold dmgReductionTick
      rw [if_pos h1, if_neg h2]
    rw [hstep]
    have hk : k <
        ({ b with dmgReductionTimer := b.dmgReductionTimer - 1 } : BossPh).dmgReductionTimer := by
      simp only
      omega
    refine ⟨(ih _ hk).1, ?_⟩
    rw [(ih _ hk).2]
    simp only
    omega

/-- On the tick the shield timer expires, the damage reduction is zeroed. -/
theorem dmgReductionTick_expire (b : BossPh) (h : b.dmgReductionTimer = 300) :
    (dmgReductionTick^[300] b).dmgReduction = 0 := by
  rw [show (300 : ℕ) = 299 + 1 from rfl, Function.iterate_succ_apply']
  have ht : (dmgReductionTick^[299] b).dmgReductionTimer = 1 := by
    rw [(dmgReductionTick_iter 299 b (by omega)).2, h]
  generalize hS : dmgReductionTick^[299] b = S at ht
  unfold dmgReductionTick
  rw [if_pos (by rw [ht]; norm_num), if_pos (by rw [ht])]

/-- C4: the boss phase machinery (GameCanvas.tsx lines 817-822, 893-937).
The transition fires on exactly the ticks observing phase 1 with
hp < 0.4 · maxHp; it fires at most once per run; on the trigger tick the boss
enters phase 2 with a 0.5 damage-reduction shield for 300 ticks and a
120-tick transition window (timer already down to 119 within the same tick);
attacks are suppressed on the trigger tick and on every tick of the remaining
transition window; the shield fraction stays 0.5 for 300 ticks of the shield
countdown and is zeroed when it expires; and the transition marks every
on-field player projectile dead. -/
theorem c4_boss_phase_transition :
    (∀ b : BossPh, (bossPhaseTick b).clearedPlayerBullets = true ↔
        (b.phase = 1 ∧ b.hp < b.maxHp * (2 / 5)))
    ∧ (∀ b : BossPh, b.phase = 1 → b.hp < b.maxHp * (2 / 5) →
        (bossPhaseTick b).boss.phase = 2 ∧
        (bossPhaseTick b).boss.phaseTransitionTimer = 119 ∧
        (bossPhaseTick b).boss.dmgReduction = 1 / 2 ∧
        (bossPhaseTick b).boss.dmgReductionTimer = 300 ∧
        (bossPhaseTick b).attacksAllowed = false)
    ∧ (∀ (b : BossPh) (ds : List ℚ), bossRunCleared b ds ≤ 1)
    ∧ (∀ (b : BossPh) (ds : List ℚ), b.phase = 2 → bossRunCleared b ds = 0)
    ∧ (∀ (b : BossPh) (ds : List ℚ), b.phase = 2 →
        (bossRunAttacks b ds).take b.phaseTransitionTimer =
          List.replicate (min b.phaseTransitionTimer ds.length) false)
    ∧ (∀ (k : ℕ) (b : BossPh), b.dmgReduction = 1 / 2 → b.dmgReductionTimer = 300 →
        (k < 300 → (dmgReductionTick^[k] b).dmgReduction = 1 / 2) ∧
        (dmgReductionTick^[300] b).dmgReduction = 0)
    ∧ (∀ bs : List Bullet, ∀ bl ∈ clearPlayerBullets bs,
        bl.owner = Owner.player → bl.dead = true) := by
  refine ⟨?_, ?_, ?_, ?_, ?_, ?_, ?_⟩
  · intro b
    rw [bossPhaseTick_cleared b]
    simp [bossTransitionTrigger]
  · intro b h1 h2
    have htr : bossTransitionTrigger (dmgReductionTick b) = true := by
      rw [bossTransitionTrigger_dmgReductionTick]
      simp [bossTransitionTrigger, h1, h2]
    simp only [bossPhaseTick]
    rw [htr]
    rw [if_pos rfl]
    rw [if_pos (show 0 < (120 : ℕ) by norm_num)]
    exact ⟨rfl, by norm_num, rfl, rfl, rfl⟩
  · intro b ds
    exact bossRunCleared_le_one ds b
  · intro b ds h
    exact bossRunCleared_phase2 ds b h
  · intro b ds h
    exact bossRunAttacks_suppressed ds b h
  · intro k b hred htimer
    constructor
    · intro hk
      rw [(dmgReductionTick_iter k b (by omega)).1, hred]
    · exact dmgReductionTick_expire b htimer
  · intro bs bl hmem how
    rcases List.mem_map.mp hmem with ⟨a, _, rfl⟩
    by_cases ha : a.owner = Owner.player
    · simp [ha]
    · rw [if_neg ha] at how ⊢
      exact absurd how ha

/-- Witness for C4 at the spec scenario: a boss with maxHp = 10000 observed at
hp = 3999 (just below 40%) in phase 1 flips to phase 2 on that tick with the
0.5/300 shield, and the shield survives 150 further countdown ticks. -/
theorem c4_boss_phase_transition_witness :
    ((⟨3999, 10000, 1, 0, 0, 0⟩ : BossPh).phase = 1)
    ∧ ((⟨3999, 10000, 1, 0, 0, 0⟩ : BossPh).hp <
        (⟨3999, 10000, 1, 0, 0, 0⟩ : BossPh).maxHp * (2 / 5))
    ∧ ((bossPhaseTick ⟨3999, 10000, 1, 0, 0, 0⟩).boss.phase = 2 ∧
        (bossPhaseTick ⟨3999, 10000, 1, 0, 0, 0⟩).boss.phaseTransitionTimer = 119 ∧
        (bossPhaseTick ⟨3999, 10000, 1, 0, 0, 0⟩).boss.dmgReduction = 1 / 2 ∧
        (bossPhaseTick ⟨3999, 10000, 1, 0, 0, 0⟩).boss.dmgReductionTimer = 300 ∧
        (bossPhaseTick ⟨3999, 10000, 1, 0, 0, 0⟩).attacksAllowed = false)
    ∧ (bossRunCleared ⟨3999, 10000, 1, 0, 0, 0⟩ [0, 0] ≤ 1)
    ∧ ((bossRunAttacks (⟨3999, 10000, 2, 119, 1 / 2, 300⟩ : BossPh) [0, 0]).take
          (⟨3999, 10000, 2, 119, 1 / 2, 300⟩ : BossPh).phaseTransitionTimer =
        List.replicate (min (⟨3999, 10000, 2, 119, 1 / 2, 300⟩ : BossPh).phaseTransitionTimer
          ([0, 0] : List ℚ).length) false)
    ∧ ((dmgReductionTick^[150] (⟨3999, 10000, 2, 119, 1 / 2, 300⟩ : BossPh)).dmgReduction
        = 1 / 2) := by
  have h1 : (⟨3999, 10000, 1, 0, 0, 0⟩ : BossPh).phase = 1 := rfl
  have h2 : (⟨3999, 10000, 1, 0, 0, 0⟩ : BossPh).hp <
      (⟨3999, 10000, 1, 0, 0, 0⟩ : BossPh).maxHp * (2 / 5) := by norm_num
  refine ⟨h1, h2, c4_boss_phase_transition.2.1 _ h1 h2, ?_, ?_, ?_⟩
  · exact c4_boss_phase_transition.2.2.1 _ [0, 0]
  · exact c4_boss_phase_transition.2.2.2.2.1 _ [0, 0] rfl
  · exact (c4_boss_phase_transition.2.2.2.2.2.1 150 _ rfl rfl).1 (by norm_num)

/-- C10 counterexample: with only the Gauss cannon equipped at level 1, frame 6
passes the global cadence gate (6 % 6 = 0) but the Gauss case emits no
projectile (6 % 40 ≠ 0); the shots-fired counter still increments by 1,
refuting the claim that the counter does not increment on frames where an
equipped weapon emits nothing. -/
theorem c10_counter_without_emission_counterexample :
    fireTick [WeaponId.gauss_cannon] (fun _ => 1) 6 0 false 1 = (1, 0) := by
  decide

/-- C10 (amended): on every frame passing the firing cadence gate the
shots-fired counter increments by exactly the number of equipped weapons —
independently of how many projectiles are actually emitted — and on all other
frames it does not increment. -/
theorem c10_shots_counter_amended :
    (∀ (ws : List WeaponId) (lvls : WeaponId → ℕ) (frame orbs : ℕ)
        (oc : Bool) (ol : ℕ), frame % baseFireRate oc ol = 0 →
        (fireTick ws lvls frame orbs oc ol).1 = ws.length)
    ∧ (∀ (ws : List WeaponId) (lvls : WeaponId → ℕ) (frame orbs : ℕ)
        (oc : Bool) (ol : ℕ), ¬frame % baseFireRate oc ol = 0 →
        fireTick ws lvls frame orbs oc ol = (0, 0)) := by
  constructor
  · intro ws lvls frame orbs oc ol h
    simp [fireTick, h]
  · intro ws lvls frame orbs oc ol h
    simp [fireTick, h]

/-- Witness for the C10 amended theorem: two equipped weapons on firing frame
6 increment the counter by 2; frame 7 increments nothing. -/
theorem c10_shots_counter_witness :
    (6 % baseFireRate false 1 = 0)
    ∧ (fireTick [WeaponId.gauss_cannon, WeaponId.plasma_cutter]
        (fun _ => 1) 6 0 false 1).1 = 2
    ∧ fireTick [WeaponId.gauss_cannon] (fun _ => 1) 7 0 false 1 = (0, 0) := by
  refine ⟨by decide, ?_, ?_⟩
  · exact c10_shots_counter_amended.1 [WeaponId.gauss_cannon, WeaponId.plasma_cutter]
      (fun _ => 1) 6 0 false 1 (by decide)
  · exact c10_shots_counter_amended.2 [WeaponId.gauss_cannon]
      (fun _ => 1) 7 0 false 1 (by decide)

/-- The damage core's bullet is exactly the on-hit-updated bullet. -/
theorem resolveDamage_bullet (s n : ℕ) (es : List Enemy) (b : Bullet) (e : Enemy) :
    (resolveDamage s n es b e).b = (onHitUpdate es b e).1 := by
  simp only [resolveDamage]
  repeat' first
  | rfl
  | split

/-- The on-hit branch chain never changes the piercing flag. -/
theorem onHitUpdate_piercing (es : List Enemy) (b : Bullet) (e : Enemy) :
    (onHitUpdate es b e).1.piercing = b.piercing := by
  unfold onHitUpdate
  repeat' first
  | rfl
  | split

/-- The on-hit branch chain keeps the hit list or appends the struck id. -/
theorem onHitUpdate_hitList (es : List Enemy) (b : Bullet) (e : Enemy) :
    (onHitUpdate es b e).1.hitList = b.hitList ∨
      (onHitUpdate es b e).1.hitList = b.hitList ++ [e.id] := by
  unfold onHitUpdate
  repeat' first
  | exact Or.inl rfl
  | exact Or.inr rfl
  | split

/-- After the on-hit branch chain of a piercing bullet, the bullet is dead or
the struck id is in its hit list. -/
theorem onHitUpdate_pierce_mark (es : List Enemy) (b : Bullet) (e : Enemy)
    (hp : b.piercing = true) :
    (onHitUpdate es b e).1.dead = true ∨ e.id ∈ (onHitUpdate es b e).1.hitList := by
  unfold onHitUpdate
  repeat' first
  | exact Or.inl rfl
  | exact Or.inr (List.mem_append_right _ (List.mem_singleton_self _))
  | exact absurd hp (by assumption)
  | split

/-- A dead bullet is never processed: the resolution is a no-op. -/
theorem resolveHit_bdead (s n : ℕ) (es : List Enemy) (b : Bullet) (e : Enemy)
    (h : b.dead = true) : resolveHit s n es b e = ⟨b, e, false, false, 0⟩ := by
  unfold resolveHit
  rw [if_pos (Or.inr h)]

/-- A dead enemy is never resolved against: the resolution is a no-op. -/
theorem resolveHit_edead (s n : ℕ) (es : List Enemy) (b : Bullet) (e : Enemy)
    (h : e.dead = true) : resolveHit s n es b e = ⟨b, e, false, false, 0⟩ := by
  unfold resolveHit
  rw [if_pos (Or.inl h)]

/-- An enemy whose id is already in the hit list is skipped entirely. -/
theorem resolveHit_mem (s n : ℕ) (es : List Enemy) (b : Bullet) (e : Enemy)
    (h : e.id ∈ b.hitList) : resolveHit s n es b e = ⟨b, e, false, false, 0⟩ := by
  unfold resolveHit
  by_cases hd : e.dead = true ∨ b.dead = true
  · rw [if_pos hd]
  · rw [if_neg hd, if_pos h]

/-- The full resolution never changes the piercing flag. -/
theorem resolveHit_piercing (s n : ℕ) (es : List Enemy) (b : Bullet) (e : Enemy) :
    (resolveHit s n es b e).b.piercing = b.piercing := by
  unfold resolveHit
  repeat' first
  | rfl
  | (rw [resolveDamage_bullet]; exact onHitUpdate_piercing es b e)
  | split

/-- The hit list is monotone: resolution never removes an id. -/
theorem resolveHit_hitList_mono (s n : ℕ) (es : List Enemy) (b : Bullet)
    (e : Enemy) (x : ℕ) (hx : x ∈ b.hitList) :
    x ∈ (resolveHit s n es b e).b.hitList := by
  unfold resolveHit
  repeat' first
  | exact hx
  | (rw [resolveDamage_bullet]
     rcases onHitUpdate_hitList es b e with h | h
     · rw [h]; exact hx
     · rw [h]; exact List.mem_append_left _ hx)
  | split

/-- For a piercing bullet, any resolution either did no damage, or left the
bullet dead or the struck id in its hit list. -/
theorem resolveHit_damage_mark (s n : ℕ) (es : List Enemy) (b : Bullet)
    (e : Enemy) (hp : b.piercing = true) :
    (resolveHit s n es b e).didDamage = false ∨
      ((resolveHit s n es b e).b.dead = true ∨
        e.id ∈ (resolveHit s n es b e).b.hitList) := by
  unfold resolveHit
  repeat' first
  | exact Or.inl rfl
  | exact Or.inr (by rw [resolveDamage_bullet]; exact onHitUpdate_pierce_mark es b e hp)
  | split

/-- Once a bullet is dead or carries the id, no later encounter damages that
id. -/
theorem damagedCount_zero (s n i : ℕ) :
    ∀ (L : List (Enemy × List Enemy)) (b : Bullet),
      b.dead = true ∨ i ∈ b.hitList → damagedCount s n i b L = 0 := by
  intro L
  induction L with
  | nil => intro b _; rfl
  | cons he rest ih =>
    obtain ⟨e, ctx⟩ := he
    intro b hb
    simp only [damagedCount]
    rcases hb with hbd | hbm
    · rw [resolveHit_bdead s n ctx b e hbd]
      rw [ih b (Or.inl hbd)]
      simp
    · by_cases hie : e.id = i
      · rw [resolveHit_mem s n ctx b e (by rw [hie]; exact hbm)]
        rw [ih b (Or.inr hbm)]
        simp
      · rw [if_neg (by simp [hie])]
        rw [ih _ (Or.inr (resolveHit_hitList_mono s n ctx b e i hbm))]

/-- A piercing bullet damages each enemy id at most once over its whole
lifetime of encounters. -/
theorem damagedCount_le_one (s n i : ℕ) :
    ∀ (L : List (Enemy × List Enemy)) (b : Bullet), b.piercing = true →
      damagedCount s n i b L ≤ 1 := by
  intro L
  induction L with
  | nil => intro b _; exact Nat.zero_le 1
  | cons he rest ih =>
    obtain ⟨e, ctx⟩ := he
    intro b hp
    simp only [damagedCount]
    by_cases hdi : (resolveHit s n ctx b e).didDamage = true ∧ e.id = i
    · rw [if_pos hdi]
      have htail : damagedCount s n i (resolveHit s n ctx b e).b rest = 0 := by
        apply damagedCount_zero
        rcases resolveHit_damage_mark s n ctx b e hp with hno | hmark
        · rw [hdi.1] at hno
          simp at hno
        · rcases hmark with hd | hm
          · exact Or.inl hd
          · rw [hdi.2] at hm
            exact Or.inr hm
      rw [htail]
    · rw [if_neg hdi]
      have hp2 : (resolveHit s n ctx b e).b.piercing = true := by
        rw [resolveHit_piercing]
        exact hp
      simpa using ih _ hp2

/-- C5: a piercing projectile never applies direct damage twice to the same
enemy id within its lifetime — an enemy whose id is already in the
projectile's hit list is skipped entirely, the hit list never shrinks, and a
projectile already marked dead is never processed again. -/
theorem c5_piercing_single_damage :
    (∀ (s n i : ℕ) (L : List (Enemy × List Enemy)) (b : Bullet),
        b.piercing = true → damagedCount s n i b L ≤ 1)
    ∧ (∀ (s n : ℕ) (es : List Enemy) (b : Bullet) (e : Enemy),
        e.id ∈ b.hitList → resolveHit s n es b e = ⟨b, e, false, false, 0⟩)
    ∧ (∀ (s n : ℕ) (es : List Enemy) (b : Bullet) (e : Enemy) (x : ℕ),
        x ∈ b.hitList → x ∈ (resolveHit s n es b e).b.hitList)
    ∧ (∀ (s n : ℕ) (es : List Enemy) (b : Bullet) (e : Enemy),
        b.dead = true → resolveHit s n es b e = ⟨b, e, false, false, 0⟩) := by
  refine ⟨?_, ?_, ?_, ?_⟩
  · intro s n i L b hp
    exact damagedCount_le_one s n i L b hp
  · intro s n es b e h
    exact resolveHit_mem s n es b e h
  · intro s n es b e x hx
    exact resolveHit_hitList_mono s n es b e x hx
  · intro s n es b e h
    exact resolveHit_bdead s n es b e h

/-- Witness for C5: a level-1 laser-stream bullet (piercing, empty hit list)
meeting the same drone twice damages it at most once; a bullet that already
hit id 1 skips it; a dead bullet resolves to a no-op. -/
theorem c5_piercing_single_damage_witness :
    ((⟨0, 0, 6, 0, -25, Owner.player, 22, 0, false, some WeaponId.laser_stream,
        true, [], none, none, none, false, false, none⟩ : Bullet).piercing = true)
    ∧ damagedCount 1 1 1
        ⟨0, 0, 6, 0, -25, Owner.player, 22, 0, false, some WeaponId.laser_stream,
          true, [], none, none, none, false, false, none⟩
        [(⟨1, 0, 0, 15, 100, 100, false, EType.drone, none, false, false, false,
            0, 0, 0, 100⟩, []),
          (⟨1, 0, 0, 15, 100, 100, false, EType.drone, none, false, false, false,
            0, 0, 0, 100⟩, [])] ≤ 1
    ∧ resolveHit 1 1 []
        ⟨0, 0, 6, 0, -25, Owner.player, 22, 0, false, some WeaponId.laser_stream,
          true, [1], none, none, none, false, false, none⟩
        ⟨1, 0, 0, 15, 100, 100, false, EType.drone, none, false, false, false,
          0, 0, 0, 100⟩ =
      ⟨⟨0, 0, 6, 0, -25, Owner.player, 22, 0, false, some WeaponId.laser_stream,
          true, [1], none, none, none, false, false, none⟩,
        ⟨1, 0, 0, 15, 100, 100, false, EType.drone, none, false, false, false,
          0, 0, 0, 100⟩, false, false, 0⟩ := by
  refine ⟨rfl, ?_, ?_⟩
  · exact c5_piercing_single_damage.1 1 1 1 _ _ rfl
  · exact c5_piercing_single_damage.2.1 1 1 [] _ _ (by simp)

/-- Concrete scene for the chain-retarget analysis: the struck enemy A at the
origin. -/
def chainVictim : Enemy :=
  ⟨1, 0, 0, 15, 100, 100, false, EType.drone, none, false, false, false, 0, 0, 0, 100⟩

/-- An enemy 150 units from A — listed FIRST among the candidates. -/
def chainFarTarget : Enemy :=
  ⟨2, 150, 0, 15, 100, 100, false, EType.drone, none, false, false, false, 0, 0, 0, 100⟩

/-- An enemy only 50 units from A — strictly nearer, but listed after. -/
def chainNearTarget : Enemy :=
  ⟨3, 0, 50, 15, 100, 100, false, EType.drone, none, false, false, false, 0, 0, 0, 100⟩

/-- A level-2 chain-lightning bolt (chainCount 4, range multiplier 2.0 per
line 741 — here 6/5 for the level-1 value would also do) sitting on A. -/
def chainBolt : Bullet :=
  ⟨0, 0, 4, 0, -18, Owner.player, 39, 0, false, some WeaponId.chain_lightning,
    false, [], some 4, none, some (6 / 5), false, false, none⟩

/-- Evaluation of the chain branch of line 1890 under its guards: the budget
decrements, the struck id is appended, and the bullet either retargets to the
first valid in-range enemy (relocating to the struck enemy's position) or
dies. -/
theorem resolveHit_chain_branch :
    ∀ (s n : ℕ) (es : List Enemy) (b : Bullet) (e : Enemy) (c : ℤ),
      b.chainCount = some c → 0 < c →
      b.weaponId ≠ some WeaponId.pulse_nova →
      b.splashRadius = none →
      b.dead = false → e.dead = false → e.id ∉ b.hitList → e.isGhost = false →
      ¬((e.etype = EType.reflector ∨ e.etype = EType.alpReflector)
          ∧ e.isReflecting = true
          ∧ distLt (b.x - e.x) (b.y - e.y) (e.width + b.width + 10) = true) →
      ¬(e.etype = EType.boss
          ∧ (e.variant = some BossVariant.theta ∨ e.variant = some BossVariant.alptraum)
          ∧ e.shieldActive = true ∧ 0 < e.shieldHp
          ∧ distLt (b.x - e.x) (b.y - e.y) 80 = true) →
      distLt (b.x - e.x) (b.y - e.y) (e.width + b.width) = true →
      e.etype ≠ EType.bossClone →
      ((resolveHit s n es b e).b.chainCount = some (c - 1)
        ∧ (resolveHit s n es b e).b.hitList = b.hitList ++ [e.id]
        ∧ (∀ nt : Enemy,
            findNextTarget es e.id e.x e.y (200 * b.orbitRadius.getD 1) = some nt →
            (resolveHit s n es b e).b.aimedAt = some nt.id
            ∧ (resolveHit s n es b e).b.x = e.x
            ∧ (resolveHit s n es b e).b.y = e.y
            ∧ (resolveHit s n es b e).b.dead = false)
        ∧ (findNextTarget es e.id e.x e.y (200 * b.orbitRadius.getD 1) = none →
            (resolveHit s n es b e).b.dead = true)) := by
  intro s n es b e c hc hcpos hwnova hsplash hbdead hedead hmem hghost hrefl hshield
    hdist hclone
  have hres : resolveHit s n es b e = resolveDamage s n es b e := by
    unfold resolveHit
    rw [if_neg (by simp [hedead, hbdead]), if_neg hmem, if_neg (by simp [hghost]),
      if_neg hrefl, if_neg hshield, if_pos hdist, if_neg hclone]
  have hchain : chainActive b = true := by
    unfold chainActive
    rw [hc]
    simpa using hcpos
  have honb : (resolveHit s n es b e).b = (onHitUpdate es b e).1 := by
    rw [hres]
    exact resolveDamage_bullet s n es b e
  have honhit1 : ¬(b.splashRadius.isSome ∧ b.weaponId ≠ some WeaponId.orbiting_orbs
      ∧ b.weaponId ≠ some WeaponId.pulse_nova
      ∧ b.weaponId ≠ some WeaponId.wave_motion) := by
    simp [hsplash]
  rcases hfind : findNextTarget es e.id e.x e.y (200 * b.orbitRadius.getD 1) with
    _ | nt
  · have hon : (onHitUpdate es b e).1 =
        { b with
            chainCount := some (b.chainCount.getD 0 - 1)
            hitList := b.hitList ++ [e.id]
            dead := true } := by
      unfold onHitUpdate
      rw [if_neg honhit1, if_pos ⟨hchain, hwnova⟩, hfind]
    refine ⟨?_, ?_, ?_, ?_⟩
    · rw [honb, hon]
      simp [hc]
    · rw [honb, hon]
    · intro nt hnt
      exact absurd hnt (by simp)
    · intro _
      rw [honb, hon]
  · have hon : (onHitUpdate es b e).1 =
        { b with
            chainCount := some (b.chainCount.getD 0 - 1)
            hitList := b.hitList ++ [e.id]
            aimedAt := some nt.id
            x := e.x
            y := e.y } := by
      unfold onHitUpdate
      rw [if_neg honhit1, if_pos ⟨hchain, hwnova⟩, hfind]
    refine ⟨?_, ?_, ?_, ?_⟩
    · rw [honb, hon]
      simp [hc]
    · rw [honb, hon]
    · intro nt2 hnt2
      have hnteq : nt = nt2 := by
        injection hnt2
      subst hnteq
      rw [honb, hon]
      exact ⟨rfl, rfl, rfl, by simp [hbdead]⟩
    · intro hnone
      exact absurd hnone (by simp)

/-- The retarget search on the concrete scene returns the FIRST in-range
candidate (id 2 at distance 150), skipping the struck enemy itself. -/
theorem chainScene_find :
    findNextTarget [chainVictim, chainFarTarget, chainNearTarget] chainVictim.id
      chainVictim.x chainVictim.y (200 * chainBolt.orbitRadius.getD 1) =
      some chainFarTarget := by
  have hA : ((chainVictim.id != chainVictim.id) && (!chainVictim.dead) &&
      distLt (chainVictim.x - chainVictim.x) (chainVictim.y - chainVictim.y)
        (200 * chainBolt.orbitRadius.getD 1)) = false := by
    simp
  have hC : ((chainFarTarget.id != chainVictim.id) && (!chainFarTarget.dead) &&
      distLt (chainFarTarget.x - chainVictim.x) (chainFarTarget.y - chainVictim.y)
        (200 * chainBolt.orbitRadius.getD 1)) = true := by
    have hd : distLt (chainFarTarget.x - chainVictim.x)
        (chainFarTarget.y - chainVictim.y) (200 * chainBolt.orbitRadius.getD 1)
        = true := by
      simp only [chainFarTarget, chainVictim, chainBolt, distLt, Option.getD]
      norm_num
    rw [hd]
    simp [chainFarTarget, chainVictim]
  unfold findNextTarget
  rw [List.find?_cons_of_neg, List.find?_cons_of_pos]
  · exact hC
  · simp [hA]

/-- C6 counterexample: both candidates sit within the 240-unit chain range of
the struck enemy and the id-3 enemy is strictly nearer, yet the code's `find`
retargets the bolt to the id-2 enemy (first in list order), and the bolt
relocates to the STRUCK enemy's position (0, 0), not to its new target's
position (150, 0) — refuting both the "nearest valid enemy" and the
"relocating to B's position" parts of the claim. -/
theorem c6_chain_nearest_counterexample :
    (distLt (chainNearTarget.x - chainVictim.x) (chainNearTarget.y - chainVictim.y)
        (200 * chainBolt.orbitRadius.getD 1) = true)
    ∧ ((chainNearTarget.x - chainVictim.x) * (chainNearTarget.x - chainVictim.x)
          + (chainNearTarget.y - chainVictim.y) * (chainNearTarget.y - chainVictim.y)
        < (chainFarTarget.x - chainVictim.x) * (chainFarTarget.x - chainVictim.x)
          + (chainFarTarget.y - chainVictim.y) * (chainFarTarget.y - chainVictim.y))
    ∧ (resolveHit 1 1 [chainVictim, chainFarTarget, chainNearTarget] chainBolt
        chainVictim).b.aimedAt = some chainFarTarget.id
    ∧ chainFarTarget.id ≠ chainNearTarget.id
    ∧ (resolveHit 1 1 [chainVictim, chainFarTarget, chainNearTarget] chainBolt
        chainVictim).b.x = chainVictim.x
    ∧ chainVictim.x ≠ chainFarTarget.x
    ∧ (resolveHit 1 1 [chainVictim, chainFarTarget, chainNearTarget] chainBolt
        chainVictim).b.chainCount = some 3
    ∧ (resolveHit 1 1 [chainVictim, chainFarTarget, chainNearTarget] chainBolt
        chainVictim).b.hitList = [chainVictim.id] := by
  have h := resolveHit_chain_branch 1 1 [chainVictim, chainFarTarget, chainNearTarget]
    chainBolt chainVictim 4 rfl (by norm_num) (by simp [chainBolt]) rfl rfl rfl
    (by simp [chainBolt]) rfl (by simp [chainVictim]) (by simp [chainVictim])
    (by simp only [chainBolt, chainVictim, distLt]; norm_num) (by simp [chainVictim])
  have haim := h.2.2.1 chainFarTarget chainScene_find
  refine ⟨?_, ?_, haim.1, by simp [chainFarTarget, chainNearTarget], haim.2.1,
    by norm_num [chainVictim, chainFarTarget], ?_, ?_⟩
  · simp only [chainNearTarget, chainVictim, chainBolt, distLt, Option.getD]
    norm_num
  · norm_num [chainNearTarget, chainFarTarget, chainVictim]
  · rw [h.1]
    norm_num
  · rw [h.2.1]
    simp [chainBolt, chainVictim]

/-- C6 (amended): a chain projectile with a positive jump budget that strikes
enemy A decrements the budget, appends A's id to its hit list, and retargets
to the FIRST enemy of the list (not the nearest) that is alive, distinct from
A and within `200 × rangeMult` of A — relocating to A's own position with a
velocity aimed at that target; if no such enemy exists it is marked dead. -/
theorem c6_chain_retarget_amended :
    ∀ (s n : ℕ) (es : List Enemy) (b : Bullet) (e : Enemy) (c : ℤ),
      b.chainCount = some c → 0 < c →
      b.weaponId ≠ some WeaponId.pulse_nova →
      b.splashRadius = none →
      b.dead = false → e.dead = false → e.id ∉ b.hitList → e.isGhost = false →
      ¬((e.etype = EType.reflector ∨ e.etype = EType.alpReflector)
          ∧ e.isReflecting = true
          ∧ distLt (b.x - e.x) (b.y - e.y) (e.width + b.width + 10) = true) →
      ¬(e.etype = EType.boss
          ∧ (e.variant = some BossVariant.theta ∨ e.variant = some BossVariant.alptraum)
          ∧ e.shieldActive = true ∧ 0 < e.shieldHp
          ∧ distLt (b.x - e.x) (b.y - e.y) 80 = true) →
      distLt (b.x - e.x) (b.y - e.y) (e.width + b.width) = true →
      e.etype ≠ EType.bossClone →
      ((resolveHit s n es b e).b.chainCount = some (c - 1)
        ∧ (resolveHit s n es b e).b.hitList = b.hitList ++ [e.id]
        ∧ (∀ nt : Enemy,
            findNextTarget es e.id e.x e.y (200 * b.orbitRadius.getD 1) = some nt →
            (resolveHit s n es b e).b.aimedAt = some nt.id
            ∧ (resolveHit s n es b e).b.x = e.x
            ∧ (resolveHit s n es b e).b.y = e.y
            ∧ (resolveHit s n es b e).b.dead = false)
        ∧ (findNextTarget es e.id e.x e.y (200 * b.orbitRadius.getD 1) = none →
            (resolveHit s n es b e).b.dead = true)) :=
  resolveHit_chain_branch

/-- Witness for the C6 amended theorem at the concrete scene: the bolt on the
id-1 enemy ends with budget 3 and hit list [1]. -/
theorem c6_chain_retarget_amended_witness :
    (resolveHit 1 1 [chainVictim, chainFarTarget, chainNearTarget] chainBolt
        chainVictim).b.chainCount = some (4 - 1)
    ∧ (resolveHit 1 1 [chainVictim, chainFarTarget, chainNearTarget] chainBolt
        chainVictim).b.hitList = chainBolt.hitList ++ [chainVictim.id] := by
  have h := c6_chain_retarget_amended 1 1 [chainVictim, chainFarTarget, chainNearTarget]
    chainBolt chainVictim 4 rfl (by norm_num) (by simp [chainBolt]) rfl rfl rfl
    (by simp [chainBolt]) rfl (by simp [chainVictim]) (by simp [chainVictim])
    (by simp only [chainBolt, chainVictim, distLt]; norm_num) (by simp [chainVictim])
  exact ⟨h.1, h.2.1⟩

/-- The damage core either paid nothing or left the enemy marked dead. -/
theorem resolveDamage_payout_dead (s n : ℕ) (es : List Enemy) (b : Bullet)
    (e : Enemy) :
    (resolveDamage s n es b e).payout = false ∨
      (resolveDamage s n es b e).e.dead = true := by
  simp only [resolveDamage]
  repeat' first
  | exact Or.inl rfl
  | exact Or.inr rfl
  | split

/-- Any resolution either paid nothing or left the enemy marked dead. -/
theorem resolveHit_payout_dead (s n : ℕ) (es : List Enemy) (b : Bullet)
    (e : Enemy) :
    (resolveHit s n es b e).payout = false ∨
      (resolveHit s n es b e).e.dead = true := by
  unfold resolveHit
  repeat' first
  | exact Or.inl rfl
  | exact resolveDamage_payout_dead s n es b e
  | split

/-- Explosion area damage never touches the dead flag. -/
theorem createExplosionHit_dead (cx cy r d : ℚ) (e : Enemy) :
    (createExplosionHit cx cy r d e).dead = e.dead := by
  unfold createExplosionHit
  split <;> rfl

/-- A dead enemy receives no payout from any further damage events. -/
theorem payoutCount_zero :
    ∀ (L : List DamageEvent) (e : Enemy), e.dead = true → payoutCount e L = 0 := by
  intro L
  induction L with
  | nil => intro e _; rfl
  | cons ev rest ih =>
    intro e he
    cases ev with
    | explosion cx cy r d =>
      simp only [payoutCount]
      exact ih _ (by rw [createExplosionHit_dead]; exact he)
    | direct s n ctx b =>
      simp only [payoutCount]
      rw [resolveHit_edead s n ctx b e he]
      simp [ih e he]

/-- Every enemy receives at most one death payout over any damage-event
sequence. -/
theorem payoutCount_le_one :
    ∀ (L : List DamageEvent) (e : Enemy), payoutCount e L ≤ 1 := by
  intro L
  induction L with
  | nil => intro e; exact Nat.zero_le 1
  | cons ev rest ih =>
    intro e
    cases ev with
    | explosion cx cy r d =>
      simp only [payoutCount]
      exact ih _
    | direct s n ctx b =>
      simp only [payoutCount]
      by_cases hp : (resolveHit s n ctx b e).payout = true
      · rw [if_pos hp, payoutCount_zero rest _ (by
          rcases resolveHit_payout_dead s n ctx b e with h | h
          · rw [hp] at h
            simp at h
          · exact h)]
      · rw [if_neg hp]
        simpa using ih _

/-- C3 (amended): the death payout runs at most once per enemy, and only from
the direct projectile resolution: explosion and spell area damage
(`createExplosion`) reduce hp without touching the dead flag and without any
payout, a dead enemy is never resolved against again (so `dead` flips
false→true at most once), and whenever a resolution pays out it
simultaneously marks the enemy dead. -/
theorem c3_payout_at_most_once :
    (∀ (L : List DamageEvent) (e : Enemy), payoutCount e L ≤ 1)
    ∧ (∀ (cx cy r d : ℚ) (e : Enemy), (createExplosionHit cx cy r d e).dead = e.dead)
    ∧ (∀ (s n : ℕ) (ctx : List Enemy) (b : Bullet) (e : Enemy), e.dead = true →
        resolveHit s n ctx b e = ⟨b, e, false, false, 0⟩)
    ∧ (∀ (s n : ℕ) (ctx : List Enemy) (b : Bullet) (e : Enemy),
        (resolveHit s n ctx b e).payout = false ∨
          (resolveHit s n ctx b e).e.dead = true) := by
  refine ⟨payoutCount_le_one, ?_, ?_, ?_⟩
  · intro cx cy r d e
    exact createExplosionHit_dead cx cy r d e
  · intro s n ctx b e h
    exact resolveHit_edead s n ctx b e h
  · intro s n ctx b e
    exact resolveHit_payout_dead s n ctx b e

/-- C3 counterexample: a drone with 30 hp killed by a single 30-damage
explosion reaches hp ≤ 0 but receives zero payouts and is never marked dead
— refuting "reaching hp ≤ 0 triggers exactly one death payout regardless of
source". -/
theorem c3_explosion_kill_no_payout_counterexample :
    payoutCount
        ⟨1, 0, 0, 15, 30, 30, false, EType.drone, none, false, false, false,
          0, 0, 0, 100⟩
        [DamageEvent.explosion 0 0 50 30] = 0
    ∧ (runDamageEvents
        ⟨1, 0, 0, 15, 30, 30, false, EType.drone, none, false, false, false,
          0, 0, 0, 100⟩
        [DamageEvent.explosion 0 0 50 30]).hp ≤ 0
    ∧ (runDamageEvents
        ⟨1, 0, 0, 15, 30, 30, false, EType.drone, none, false, false, false,
          0, 0, 0, 100⟩
        [DamageEvent.explosion 0 0 50 30]).dead = false := by
  norm_num [payoutCount, runDamageEvents, createExplosionHit, distLt]
  simp

/-- Witness for the C3 amended theorem: one direct lethal hit on a 30-hp
drone at point-blank range pays out at most once, and a dead drone resolves
to a no-op. -/
theorem c3_payout_at_most_once_witness :
    payoutCount
        ⟨2, 0, 0, 15, 30, 30, false, EType.drone, none, false, false, false,
          0, 0, 0, 100⟩
        [DamageEvent.direct 1 1 []
          ⟨0, 0, 4, 0, -15, Owner.player, 40, 0, false, some WeaponId.plasma_cutter,
            false, [], none, none, none, false, false, none⟩] ≤ 1
    ∧ resolveHit 1 1 []
        ⟨0, 0, 4, 0, -15, Owner.player, 40, 0, false, some WeaponId.plasma_cutter,
          false, [], none, none, none, false, false, none⟩
        ⟨3, 0, 0, 15, 30, 30, true, EType.drone, none, false, false, false,
          0, 0, 0, 100⟩ =
      ⟨⟨0, 0, 4, 0, -15, Owner.player, 40, 0, false, some WeaponId.plasma_cutter,
          false, [], none, none, none, false, false, none⟩,
        ⟨3, 0, 0, 15, 30, 30, true, EType.drone, none, false, false, false,
          0, 0, 0, 100⟩, false, false, 0⟩ := by
  constructor
  · exact c3_payout_at_most_once.1 _ _
  · exact c3_payout_at_most_once.2.2.1 1 1 [] _ _ rfl

/-- C7 counterexample: under a 5× time dilation (timeScale = 1/5) a tank's
per-tick movement shrinks to 0.16 units, but its shot timer still advances by
a full frame and fires on exactly the same tick as at timeScale 1 — refuting
the claim that the reduced time scale throttles enemy timers. -/
theorem c7_timer_not_throttled_counterexample :
    tankStep (1 / 5) 0 90 = (4 / 25, 0, true)
    ∧ tankStep 1 0 90 = (4 / 5, 0, true) := by
  constructor <;> norm_num [tankStep]

/-- C7 (amended): the time-scale throttles enemy-owned projectile movement
and the positional deltas of the standard-mob branches (represented by the
tank's `0.8 · timeScale` descent), and leaves player-owned projectile
movement untouched — but enemy pattern/shot timers advance one full frame
per tick regardless of the time-scale, and the boss/clone/follower/
oracle-minion movement branches (represented by the beta-variant oracle
minion) move by their full velocity with no time-scale factor at all. -/
theorem c7_timescale_amended :
    (∀ (ts : ℚ) (b : Bullet), b.owner = Owner.enemy →
        b.weaponId ≠ some WeaponId.orbiting_orbs → b.isSpawner = false →
        (bulletAdvance ts b).x = b.x + b.vx * ts
        ∧ (bulletAdvance ts b).y = b.y + b.vy * ts)
    ∧ (∀ (ts : ℚ) (b : Bullet), b.owner = Owner.player →
        b.weaponId ≠ some WeaponId.orbiting_orbs → b.isSpawner = false →
        (bulletAdvance ts b).x = b.x + b.vx
        ∧ (bulletAdvance ts b).y = b.y + b.vy)
    ∧ (∀ (ts y : ℚ) (st : ℕ), (tankStep ts y st).1 = y + (4 / 5) * ts)
    ∧ (∀ (ts1 ts2 y1 y2 : ℚ) (st : ℕ),
        (tankStep ts1 y1 st).2 = (tankStep ts2 y2 st).2)
    ∧ (∀ (canvasW x y vx vy : ℚ),
        (oracleMinionBetaMove canvasW x y vx vy).1 = x + vx
        ∧ (oracleMinionBetaMove canvasW x y vx vy).2.1 = y + vy) := by
  refine ⟨?_, ?_, ?_, ?_, ?_⟩
  · intro ts b ho hw hs
    unfold bulletAdvance
    rw [if_pos ⟨hw, hs⟩]
    rw [ho]
    exact ⟨rfl, rfl⟩
  · intro ts b ho hw hs
    unfold bulletAdvance
    rw [if_pos ⟨hw, hs⟩]
    rw [ho]
    constructor
    · show b.x + b.vx * (if Owner.player = Owner.enemy then ts else 1) = b.x + b.vx
      rw [if_neg (by simp)]
      ring
    · show b.y + b.vy * (if Owner.player = Owner.enemy then ts else 1) = b.y + b.vy
      rw [if_neg (by simp)]
      ring
  · intro ts y st
    rfl
  · intro ts1 ts2 y1 y2 st
    rfl
  · intro canvasW x y vx vy
    unfold oracleMinionBetaMove
    split <;> exact ⟨rfl, rfl⟩

/-- Witness for the C7 amended theorem: a concrete enemy bullet moves by
vx · 1/5 under dilation, a player bullet by its full vx, and a beta oracle
minion by its full vx with no time-scale in sight. -/
theorem c7_timescale_amended_witness :
    (bulletAdvance (1 / 5)
        ⟨100, 100, 5, 10, 0, Owner.enemy, 10, 0, false, none, false, [], none,
          none, none, false, false, none⟩).x = 100 + 10 * (1 / 5)
    ∧ (bulletAdvance (1 / 5)
        ⟨100, 100, 5, 10, 0, Owner.player, 10, 0, false, none, false, [], none,
          none, none, false, false, none⟩).x = 100 + 10
    ∧ (oracleMinionBetaMove 600 100 100 3 (1 / 2)).1 = 100 + 3 := by
  refine ⟨?_, ?_, ?_⟩
  · exact (c7_timescale_amended.1 (1 / 5) _ rfl (by simp) rfl).1
  · exact (c7_timescale_amended.2.1 (1 / 5) _ rfl (by simp) rfl).1
  · exact (c7_timescale_amended.2.2.2.2 600 100 100 3 (1 / 2)).1

/-- Concrete orphaned oracle minion (its theta parent is gone). -/
def oracleOrphan : Enemy :=
  ⟨7, 100, 100, 12, 50, 50, false, EType.oracleMinion, some BossVariant.alpha,
    false, false, false, 0, 0, 0, 500⟩

/-- C8 counterexample: an oracle minion is not in the boss-death cascade
filter (line 1905) — it survives the tick its theta boss dies — and its own
behavior branch never self-terminates on a dead or missing parent (lines
1583-1593, the alpha variant drifts instead). This refutes "this applies to
all follower kinds parented by id, including oracle_minion". -/
theorem c8_oracle_minion_counterexample :
    cascadeTarget oracleOrphan = false
    ∧ (bossDeathCascadeOne oracleOrphan).dead = false
    ∧ orphanSelfTerminates EType.oracleMinion true false = false
    ∧ orphanSelfTerminates EType.oracleMinion true true = false := by
  refine ⟨rfl, ?_, rfl, rfl⟩
  rw [bossDeathCascadeOne, if_neg (by simp [cascadeTarget, oracleOrphan])]
  rfl

/-- C8 (amended): the boss-death cascade marks boss clones, ghosts, alp
mini-bosses, alp reflectors and seraph drones dead in the same tick and
leaves every other enemy — oracle minions included — untouched; seraph
drones and alp mini-bosses self-terminate when their parent is dead or
missing, a live parent never triggers self-termination, and oracle minions
never self-terminate at all. -/
theorem c8_cascade_amended :
    (∀ en : Enemy,
        (en.etype = EType.bossClone ∨ en.isGhost = true ∨ en.etype = EType.alpMiniBoss
          ∨ en.etype = EType.alpReflector ∨ en.etype = EType.seraphDrone) →
        (bossDeathCascadeOne en).dead = true)
    ∧ (∀ en : Enemy, cascadeTarget en = false → bossDeathCascadeOne en = en)
    ∧ (∀ es : List Enemy, bossDeathCascade es = es.map bossDeathCascadeOne)
    ∧ (orphanSelfTerminates EType.seraphDrone true false = true)
    ∧ (orphanSelfTerminates EType.alpMiniBoss true false = true)
    ∧ (∀ (hpar pal : Bool), orphanSelfTerminates EType.oracleMinion hpar pal = false)
    ∧ (∀ (t : EType) (hpar : Bool), orphanSelfTerminates t hpar true = false) := by
  refine ⟨?_, ?_, ?_, rfl, rfl, ?_, ?_⟩
  · intro en h
    have hc : cascadeTarget en = true := by
      rcases h with h | h | h | h | h <;> simp [cascadeTarget, h]
    rw [bossDeathCascadeOne, if_pos hc]
  · intro en h
    rw [bossDeathCascadeOne, if_neg (by simp [h])]
  · intro es
    rfl
  · intro hpar pal
    rfl
  · intro t hpar
    cases t <;> cases hpar <;> rfl

/-- Witness for the C8 amended theorem: a ghost drone is cascade-killed, a
plain drone untouched. -/
theorem c8_cascade_amended_witness :
    (bossDeathCascadeOne
        ⟨8, 0, 0, 25, 999999, 999999, false, EType.drone, none, true, false,
          false, 0, 0, 0, 0⟩).dead = true
    ∧ bossDeathCascadeOne
        ⟨9, 0, 0, 12, 30, 30, false, EType.drone, none, false, false, false,
          0, 0, 0, 100⟩ =
      ⟨9, 0, 0, 12, 30, 30, false, EType.drone, none, false, false, false,
        0, 0, 0, 100⟩ := by
  constructor
  · exact c8_cascade_amended.1 _ (Or.inr (Or.inl rfl))
  · exact c8_cascade_amended.2.1 _ rfl

end NPZ
